import Mathlib

/-!
# Verification of the ParkingMate vehicle-plate OCR pipeline

Shallow embedding of `src/components/VehicleOCR.tsx`: the plate extractor
(text normalization + two-tier regex matching), the two OCR backend adapters
(OCR.space remote, Tesseract local), the orchestrator `extractVehicleNumber`,
and the camera capture path `capturePhoto`.

Strings are modelled as Lean `String`s; the regex matching of
`/[A-Z]{2}[0-9]{2}[A-Z]{1,2}[0-9]{4}/i` and `/[A-Z0-9]{8,13}/i` is implemented
directly on `List Char` with JavaScript semantics (leftmost match, greedy
quantifiers with backtracking).
-/

/-- ASCII letter, as matched by `[A-Z]` under the `/i` flag. -/
def isAsciiAlpha (c : Char) : Bool :=
  (65 ≤ c.toNat && c.toNat ≤ 90) || (97 ≤ c.toNat && c.toNat ≤ 122)

/-- ASCII digit, as matched by `[0-9]`. -/
def isAsciiDigit (c : Char) : Bool :=
  48 ≤ c.toNat && c.toNat ≤ 57

/-- Character matched by `[A-Z0-9]` under the `/i` flag. -/
def isAlnumChar (c : Char) : Bool :=
  isAsciiAlpha c || isAsciiDigit c

/-- Character matched by JavaScript's `\s` class (as used in
`.replace(/\s+/g, '')` at lines 72 and 110 of `VehicleOCR.tsx`). -/
def isJSWhitespace (c : Char) : Bool :=
  c.toNat = 9 || c.toNat = 10 || c.toNat = 11 || c.toNat = 12 || c.toNat = 13 ||
  c.toNat = 32 || c.toNat = 160 || c.toNat = 5760 ||
  (8192 ≤ c.toNat && c.toNat ≤ 8202) || c.toNat = 8232 || c.toNat = 8233 ||
  c.toNat = 8239 || c.toNat = 8287 || c.toNat = 12288 || c.toNat = 65279

/-- The normalization step `text.replace(/\s+/g, '').replace(/\n/g, '')`:
remove every whitespace character. -/
def cleanChars (raw : List Char) : List Char :=
  raw.filter (fun c => !isJSWhitespace c)

/-- Match `[0-9]{4}` at the head of the list, returning the four digits. -/
def takeDigits4 : List Char → Option (List Char)
  | d1 :: d2 :: d3 :: d4 :: _ =>
    if isAsciiDigit d1 && isAsciiDigit d2 && isAsciiDigit d3 && isAsciiDigit d4 then
      some [d1, d2, d3, d4]
    else none
  | _ => none

/-- Match `[A-Z]{1,2}[0-9]{4}` (case-insensitive) at the head of the list,
greedily: try two letters first, backtrack to one. -/
def matchTail : List Char → Option (List Char)
  | l1 :: l2 :: rest =>
    if isAsciiAlpha l1 then
      if isAsciiAlpha l2 then
        match takeDigits4 rest with
        | some ds => some (l1 :: l2 :: ds)
        | none =>
          match takeDigits4 (l2 :: rest) with
          | some ds => some (l1 :: ds)
          | none => none
      else
        match takeDigits4 (l2 :: rest) with
        | some ds => some (l1 :: ds)
        | none => none
    else none
  | _ => none

/-- Match the strict plate pattern `[A-Z]{2}[0-9]{2}[A-Z]{1,2}[0-9]{4}`
(case-insensitive) anchored at the head of the list. -/
def matchPlateAt : List Char → Option (List Char)
  | a :: b :: c :: d :: rest =>
    if isAsciiAlpha a && isAsciiAlpha b && isAsciiDigit c && isAsciiDigit d then
      match matchTail rest with
      | some t => some (a :: b :: c :: d :: t)
      | none => none
    else none
  | _ => none

/-- `cleanText.match(/[A-Z]{2}[0-9]{2}[A-Z]{1,2}[0-9]{4}/i)`: the leftmost
strict-pattern match, if any. -/
def findPlate : List Char → Option (List Char)
  | [] => none
  | c :: cs =>
    match matchPlateAt (c :: cs) with
    | some m => some m
    | none => findPlate cs

/-- Take up to `n` leading characters matched by `[A-Z0-9]` (greedy). -/
def takeAlnumUpTo : Nat → List Char → List Char
  | 0, _ => []
  | _, [] => []
  | n + 1, c :: cs => if isAlnumChar c then c :: takeAlnumUpTo n cs else []

/-- Match `[A-Z0-9]{8,13}` anchored at the head of the list: greedily take up
to 13 alphanumeric characters and succeed when at least 8 were taken. -/
def matchBroadAt (cs : List Char) : Option (List Char) :=
  let r := takeAlnumUpTo 13 cs
  if 8 ≤ r.length then some r else none

/-- `cleanText.match(/[A-Z0-9]{8,13}/i)`: the leftmost broad-pattern match. -/
def findBroad : List Char → Option (List Char)
  | [] => none
  | c :: cs =>
    match matchBroadAt (c :: cs) with
    | some m => some m
    | none => findBroad cs

/-- Text-to-plate extraction as written inside `extractVehicleNumberWithOCRSpace`
(lines 72-88 of `VehicleOCR.tsx`): normalize, try the strict pattern, then the
broad pattern, upper-casing the match; null when neither matches. -/
def extractOCRSpaceCore (raw : List Char) : Option (List Char) :=
  let cleanText := cleanChars raw
  match findPlate cleanText with
  | some m => some (m.map Char.toUpper)
  | none =>
    match findBroad cleanText with
    | some broadMatch => some (broadMatch.map Char.toUpper)
    | none => none

/-- Text-to-plate extraction as written inside `extractVehicleNumberWithTesseract`
(lines 110-125 of `VehicleOCR.tsx`): normalize, try the strict pattern, then the
broad pattern, upper-casing the match; null when neither matches. -/
def extractTesseractCore (raw : List Char) : Option (List Char) :=
  let cleanText := cleanChars raw
  match findPlate cleanText with
  | some m => some (m.map Char.toUpper)
  | none =>
    match findBroad cleanText with
    | some broadMatch => some (broadMatch.map Char.toUpper)
    | none => none

/-- String-level wrapper of the OCR.space adapter's text extraction. -/
def extractVehicleNumberTextOCRSpace (raw : String) : Option String :=
  (extractOCRSpaceCore raw.data).map String.mk

/-- String-level wrapper of the Tesseract adapter's text extraction. -/
def extractVehicleNumberTextTesseract (raw : String) : Option String :=
  (extractTesseractCore raw.data).map String.mk

/-!
## Backend adapters

`extractVehicleNumberWithOCRSpace` (lines 43-93) posts the image to the remote
service inside a `try`/`catch` that returns `null` on any thrown error.  The
observable behaviour of one call is determined by its outcome: the transport or
JSON parse threw, or a response arrived with an HTTP ok-flag, an `OCRExitCode`
and a `ParsedResults` array (a missing/null array is modelled as `[]`).
-/

/-- Possible outcomes of the OCR.space HTTP call made by the Primary adapter. -/
inductive OCRSpaceOutcome where
  /-- `fetch` or `response.json()` threw (network failure, malformed body). -/
  | thrown : OCRSpaceOutcome
  /-- A response arrived: `response.ok`, `result.OCRExitCode`, and
  `result.ParsedResults[..].ParsedText` (empty list when absent or empty). -/
  | response (ok : Bool) (exitCode : Int) (parsedResults : List String) : OCRSpaceOutcome
deriving DecidableEq

/-- Possible outcomes of the local `Tesseract.recognize` call. -/
inductive TesseractOutcome where
  /-- `Tesseract.recognize` threw. -/
  | thrown : TesseractOutcome
  /-- Recognition returned `data.text`. -/
  | recognized (text : String) : TesseractOutcome
deriving DecidableEq

/-- The Primary adapter `extractVehicleNumberWithOCRSpace` (lines 43-93):
a thrown error is caught and becomes `null`; `!response.ok` throws (caught in
the same function); on `OCRExitCode === 1` with a nonempty `ParsedResults`,
the first parsed text goes through the extractor; otherwise `null`. -/
def runOCRSpaceAdapter : OCRSpaceOutcome → Option String
  | .thrown => none
  | .response ok exitCode parsedResults =>
    if ok then
      if exitCode = 1 then
        match parsedResults with
        | parsedText :: _ => extractVehicleNumberTextOCRSpace parsedText
        | [] => none
      else none
    else none

/-- The Fallback adapter `extractVehicleNumberWithTesseract` (lines 95-130):
a thrown error is caught and becomes `null`; otherwise the recognized text
goes through the extractor. -/
def runTesseractAdapter : TesseractOutcome → Option String
  | .thrown => none
  | .recognized text => extractVehicleNumberTextTesseract text

/-!
## Orchestrator

`extractVehicleNumber` (lines 132-187).  Its input is `File | string`; the
branch on `imageFile instanceof File` is modelled by the two constructors of
`ImageInput`, each carrying the outcome every backend would produce on that
image.  The trace records how often each backend was invoked and the final
outcome (the success/not-found toast, with the `usedMethod` string).
-/

/-- An input to `extractVehicleNumber`: a `File` object, or a string source
(only the Tesseract backend accepts strings). -/
inductive ImageInput where
  | file (primaryOutcome : OCRSpaceOutcome) (fallbackOutcome : TesseractOutcome) : ImageInput
  | str (fallbackOutcome : TesseractOutcome) : ImageInput
deriving DecidableEq

/-- Final outcome reported by the orchestrator. -/
inductive OCRResult where
  /-- The "Vehicle Number Detected" toast: detected text and `usedMethod`. -/
  | success (text : String) (method : String) : OCRResult
  /-- The "No Vehicle Number Found" toast. -/
  | notFound : OCRResult
deriving DecidableEq

/-- `usedMethod` value for the Primary backend. -/
def ocrSpaceMethod : String := "OCR.space API"

/-- `usedMethod` value for the Fallback backend. -/
def tesseractMethod : String := "Tesseract.js (fallback)"

/-- Trace of one orchestrator invocation: number of calls made to each
backend, and the reported outcome. -/
structure PipelineTrace where
  primaryCalls : Nat
  fallbackCalls : Nat
  result : OCRResult
deriving DecidableEq

/-- The `if (!vehicleNumber)` fallback block (lines 148-154) followed by the
final `if (vehicleNumber)` report (lines 158-176).  JavaScript truthiness:
`null` and `""` are falsy, so a fallback result of `""` would report
not-found. -/
def finishWithFallback (primaryCalls : Nat) (fo : TesseractOutcome) : PipelineTrace :=
  match runTesseractAdapter fo with
  | some s =>
    if s = "" then ⟨primaryCalls, 1, .notFound⟩
    else ⟨primaryCalls, 1, .success s tesseractMethod⟩
  | none => ⟨primaryCalls, 1, .notFound⟩

/-- The orchestrator `extractVehicleNumber` (lines 132-187): Primary is tried
first, but only for `File` inputs; any falsy Primary result (null or `""`)
triggers the Fallback; the final report uses whichever result is truthy. -/
def extractVehicleNumber : ImageInput → PipelineTrace
  | .file po fo =>
    match runOCRSpaceAdapter po with
    | some s =>
      if s = "" then finishWithFallback 1 fo
      else ⟨1, 0, .success s ocrSpaceMethod⟩
    | none => finishWithFallback 1 fo
  | .str fo => finishWithFallback 0 fo

/-!
## Camera capture

`capturePhoto` (lines 270-339).  After the early ref/context checks, the
canvas is sized with `video.videoWidth || 640` and `video.videoHeight || 480`
(a zero dimension silently falls back to the default), the frame is encoded
with `canvas.toBlob`, and a `null` blob aborts with the "Could not capture
image" toast.  A non-null blob is wrapped in a `new File(...)` — explicitly
"for OCR.space API" — and handed to `extractVehicleNumber`.
-/

/-- Observable outcome of `capturePhoto`. -/
inductive CaptureResult where
  /-- The "Could not capture image" error toast; no OCR backend runs. -/
  | captureError : CaptureResult
  /-- OCR ran on the captured frame: canvas dimensions used, and the trace of
  the `extractVehicleNumber` invocation on the resulting `File`. -/
  | ocrInvoked (canvasWidth canvasHeight : Nat) (trace : PipelineTrace) : CaptureResult
deriving DecidableEq

/-- `capturePhoto` (lines 293-330), given the video dimensions, whether the
encoder produced a blob, and the outcome each backend would produce on the
captured image. -/
def capturePhoto (videoWidth videoHeight : Nat) (blobProduced : Bool)
    (po : OCRSpaceOutcome) (fo : TesseractOutcome) : CaptureResult :=
  let canvasWidth := if videoWidth = 0 then 640 else videoWidth
  let canvasHeight := if videoHeight = 0 then 480 else videoHeight
  if blobProduced then
    .ocrInvoked canvasWidth canvasHeight (extractVehicleNumber (.file po fo))
  else
    .captureError

/-- Number of Primary-backend calls recorded in a capture outcome. -/
def capturePrimaryCalls : CaptureResult → Nat
  | .captureError => 0
  | .ocrInvoked _ _ trace => trace.primaryCalls

/-!
## Shape predicates

`isPlateShaped` describes the strings matched, as a whole, by the strict
pattern actually in the source, `[A-Z]{2}[0-9]{2}[A-Z]{1,2}[0-9]{4}/i`.
`specClaimedShape` is modelled from the spec's words for comparison: "two
letters, one-to-two digits, one-to-two letters, three-to-five digits
(case-insensitive) OR ... two digits, two letters, four digits, one letter".
-/

/-- A string matched in full by `[A-Z]{2}[0-9]{2}[A-Z]{1,2}[0-9]{4}/i`:
two letters, exactly two digits, one or two letters, exactly four digits. -/
def isPlateShaped (m : List Char) : Bool :=
  match m with
  | [x1, x2, x3, x4, x5, x6, x7, x8, x9] =>
    isAsciiAlpha x1 && isAsciiAlpha x2 && isAsciiDigit x3 && isAsciiDigit x4 &&
    isAsciiAlpha x5 && isAsciiDigit x6 && isAsciiDigit x7 && isAsciiDigit x8 &&
    isAsciiDigit x9
  | [x1, x2, x3, x4, x5, x6, x7, x8, x9, x10] =>
    isAsciiAlpha x1 && isAsciiAlpha x2 && isAsciiDigit x3 && isAsciiDigit x4 &&
    isAsciiAlpha x5 && isAsciiAlpha x6 && isAsciiDigit x7 && isAsciiDigit x8 &&
    isAsciiDigit x9 && isAsciiDigit x10
  | _ => false

/-- Modelled from the spec's words (claim C2): the claimed primary pattern,
"two letters, one-to-two digits, one-to-two letters, three-to-five digits
(case-insensitive) OR a numeric-prefixed regional variant (two digits, two
letters, four digits, one letter)", as a whole-string shape test.  Character
classes alternate, so splitting into maximal class runs is exact. -/
def specClaimedShape (m : List Char) : Bool :=
  let l1 := m.takeWhile isAsciiAlpha
  let r1 := m.dropWhile isAsciiAlpha
  let d1 := r1.takeWhile isAsciiDigit
  let r2 := r1.dropWhile isAsciiDigit
  let l2 := r2.takeWhile isAsciiAlpha
  let r3 := r2.dropWhile isAsciiAlpha
  let d2 := r3.takeWhile isAsciiDigit
  let r4 := r3.dropWhile isAsciiDigit
  let shapeA := l1.length = 2 && 1 ≤ d1.length && d1.length ≤ 2 &&
    1 ≤ l2.length && l2.length ≤ 2 && 3 ≤ d2.length && d2.length ≤ 5 && r4.isEmpty
  let e1 := m.takeWhile isAsciiDigit
  let s1 := m.dropWhile isAsciiDigit
  let e2 := s1.takeWhile isAsciiAlpha
  let s2 := s1.dropWhile isAsciiAlpha
  let e3 := s2.takeWhile isAsciiDigit
  let s3 := s2.dropWhile isAsciiDigit
  let e4 := s3.takeWhile isAsciiAlpha
  let s4 := s3.dropWhile isAsciiAlpha
  let shapeB := e1.length = 2 && e2.length = 2 && e3.length = 4 &&
    e4.length = 1 && s4.isEmpty
  shapeA || shapeB

/-!
## Character-class lemmas
-/

theorem digit_not_alpha {c : Char} (h : isAsciiDigit c = true) :
    isAsciiAlpha c = false := by
  simp [isAsciiDigit] at h
  simp [isAsciiAlpha]
  omega

theorem alnum_of_alpha {c : Char} (h : isAsciiAlpha c = true) :
    isAlnumChar c = true := by
  simp [isAlnumChar, h]

theorem alnum_of_digit {c : Char} (h : isAsciiDigit c = true) :
    isAlnumChar c = true := by
  simp [isAlnumChar, h]

theorem alnum_not_ws {c : Char} (h : isAlnumChar c = true) :
    isJSWhitespace c = false := by
  simp [isAlnumChar, isAsciiAlpha, isAsciiDigit] at h
  simp [isJSWhitespace]
  omega

theorem char_toNat_ofNat {n : Nat} (h : n < 55296) : (Char.ofNat n).toNat = n := by
  rw [Char.ofNat, dif_pos (Or.inl h)]
  rfl

theorem toUpper_alnum {c : Char} (h : isAlnumChar c = true) :
    isAlnumChar (Char.toUpper c) = true := by
  simp only [Char.toUpper]
  split
  · rename_i hlow
    have hv : (Char.ofNat (c.toNat - 32)).toNat = c.toNat - 32 :=
      char_toNat_ofNat (by omega)
    simp [isAlnumChar, isAsciiAlpha, isAsciiDigit, hv]
    omega
  · exact h

theorem toUpper_not_ws {c : Char} (h : isAlnumChar c = true) :
    isJSWhitespace (Char.toUpper c) = false :=
  alnum_not_ws (toUpper_alnum h)

/-!
## Strict-pattern matcher lemmas
-/

theorem takeDigits4_spec {cs ds : List Char} (h : takeDigits4 cs = some ds) :
    ∃ d1 d2 d3 d4 t, cs = d1 :: d2 :: d3 :: d4 :: t ∧ ds = [d1, d2, d3, d4] ∧
      isAsciiDigit d1 = true ∧ isAsciiDigit d2 = true ∧
      isAsciiDigit d3 = true ∧ isAsciiDigit d4 = true := by
  unfold takeDigits4 at h
  split at h
  · rename_i d1 d2 d3 d4 t
    split at h
    · rename_i hg
      simp only [Bool.and_eq_true] at hg
      obtain ⟨⟨⟨h1, h2⟩, h3⟩, h4⟩ := hg
      simp only [Option.some.injEq] at h
      exact ⟨d1, d2, d3, d4, t, rfl, h.symm, h1, h2, h3, h4⟩
    · exact absurd h (by simp)
  · exact absurd h (by simp)

theorem matchTail_spec {cs m : List Char} (h : matchTail cs = some m) :
    (∃ l1 d1 d2 d3 d4, m = [l1, d1, d2, d3, d4] ∧ isAsciiAlpha l1 = true ∧
      isAsciiDigit d1 = true ∧ isAsciiDigit d2 = true ∧
      isAsciiDigit d3 = true ∧ isAsciiDigit d4 = true) ∨
    (∃ l1 l2 d1 d2 d3 d4, m = [l1, l2, d1, d2, d3, d4] ∧
      isAsciiAlpha l1 = true ∧ isAsciiAlpha l2 = true ∧
      isAsciiDigit d1 = true ∧ isAsciiDigit d2 = true ∧
      isAsciiDigit d3 = true ∧ isAsciiDigit d4 = true) := by
  unfold matchTail at h
  split at h
  · rename_i l1 l2 rest
    split at h
    · rename_i h1
      split at h
      · rename_i h2
        split at h
        · rename_i ds hd
          simp only [Option.some.injEq] at h
          obtain ⟨e1, e2, e3, e4, t, _, hds, g1, g2, g3, g4⟩ := takeDigits4_spec hd
          right
          exact ⟨l1, l2, e1, e2, e3, e4, by rw [← h, hds], h1, h2, g1, g2, g3, g4⟩
        · split at h
          · rename_i ds hd2
            simp only [Option.some.injEq] at h
            obtain ⟨e1, e2, e3, e4, t, _, hds, g1, g2, g3, g4⟩ := takeDigits4_spec hd2
            left
            exact ⟨l1, e1, e2, e3, e4, by rw [← h, hds], h1, g1, g2, g3, g4⟩
          · exact absurd h (by simp)
      · split at h
        · rename_i ds hd2
          simp only [Option.some.injEq] at h
          obtain ⟨e1, e2, e3, e4, t, _, hds, g1, g2, g3, g4⟩ := takeDigits4_spec hd2
          left
          exact ⟨l1, e1, e2, e3, e4, by rw [← h, hds], h1, g1, g2, g3, g4⟩
        · exact absurd h (by simp)
    · exact absurd h (by simp)
  · exact absurd h (by simp)

theorem matchPlateAt_shaped {cs m : List Char} (h : matchPlateAt cs = some m) :
    isPlateShaped m = true := by
  unfold matchPlateAt at h
  split at h
  · rename_i a b c d rest
    split at h
    · rename_i hg
      simp only [Bool.and_eq_true] at hg
      obtain ⟨⟨⟨ha, hb⟩, hc⟩, hd⟩ := hg
      split at h
      · rename_i t ht
        simp only [Option.some.injEq] at h
        rcases matchTail_spec ht with
          ⟨l1, d1, d2, d3, d4, hm, g1, g2, g3, g4, g5⟩ |
          ⟨l1, l2, d1, d2, d3, d4, hm, g1, g2, g3, g4, g5, g6⟩
        · subst hm
          rw [← h]
          simp [isPlateShaped, ha, hb, hc, hd, g1, g2, g3, g4, g5]
        · subst hm
          rw [← h]
          simp [isPlateShaped, ha, hb, hc, hd, g1, g2, g3, g4, g5, g6]
      · exact absurd h (by simp)
    · exact absurd h (by simp)
  · exact absurd h (by simp)

theorem matchPlateAt_complete {m : List Char} (h : isPlateShaped m = true) (t : List Char) :
    matchPlateAt (m ++ t) = some m := by
  rcases m with _|⟨x1,_|⟨x2,_|⟨x3,_|⟨x4,_|⟨x5,_|⟨x6,_|⟨x7,_|⟨x8,_|⟨x9,_|⟨x10,_|⟨x11,m⟩⟩⟩⟩⟩⟩⟩⟩⟩⟩⟩ <;>
    simp only [isPlateShaped, Bool.and_eq_true] at h <;>
    try exact absurd h Bool.false_ne_true
  · obtain ⟨⟨⟨⟨⟨⟨⟨⟨h1, h2⟩, h3⟩, h4⟩, h5⟩, h6⟩, h7⟩, h8⟩, h9⟩ := h
    simp [matchPlateAt, matchTail, takeDigits4, h1, h2, h3, h4, h5, h6, h7, h8, h9,
      digit_not_alpha h6]
  · obtain ⟨⟨⟨⟨⟨⟨⟨⟨⟨h1, h2⟩, h3⟩, h4⟩, h5⟩, h6⟩, h7⟩, h8⟩, h9⟩, h10⟩ := h
    simp [matchPlateAt, matchTail, takeDigits4, h1, h2, h3, h4, h5, h6, h7, h8, h9, h10]

theorem findPlate_shaped {cs m : List Char} (h : findPlate cs = some m) :
    isPlateShaped m = true := by
  induction cs with
  | nil => simp [findPlate] at h
  | cons c cs ih =>
    unfold findPlate at h
    split at h
    · rename_i m2 hm
      simp only [Option.some.injEq] at h
      subst h
      exact matchPlateAt_shaped hm
    · exact ih h

theorem findPlate_isSome_append (p rest : List Char)
    (h : (matchPlateAt rest).isSome = true) :
    (findPlate (p ++ rest)).isSome = true := by
  induction p with
  | nil =>
    simp only [List.nil_append]
    cases rest with
    | nil => simp [matchPlateAt] at h
    | cons c cs =>
      unfold findPlate
      cases hm : matchPlateAt (c :: cs) with
      | some m => simp
      | none => rw [hm] at h; simp at h
  | cons c p ih =>
    simp only [List.cons_append]
    unfold findPlate
    cases hm : matchPlateAt (c :: (p ++ rest)) with
    | some m => simp
    | none => simpa using ih

theorem shaped_all_alnum {m : List Char} (h : isPlateShaped m = true) :
    m.all isAlnumChar = true := by
  rcases m with _|⟨x1,_|⟨x2,_|⟨x3,_|⟨x4,_|⟨x5,_|⟨x6,_|⟨x7,_|⟨x8,_|⟨x9,_|⟨x10,_|⟨x11,m⟩⟩⟩⟩⟩⟩⟩⟩⟩⟩⟩ <;>
    simp only [isPlateShaped, Bool.and_eq_true] at h <;>
    try exact absurd h Bool.false_ne_true
  · obtain ⟨⟨⟨⟨⟨⟨⟨⟨h1, h2⟩, h3⟩, h4⟩, h5⟩, h6⟩, h7⟩, h8⟩, h9⟩ := h
    simp [List.all_cons, alnum_of_alpha h1, alnum_of_alpha h2, alnum_of_digit h3,
      alnum_of_digit h4, alnum_of_alpha h5, alnum_of_digit h6, alnum_of_digit h7,
      alnum_of_digit h8, alnum_of_digit h9]
  · obtain ⟨⟨⟨⟨⟨⟨⟨⟨⟨h1, h2⟩, h3⟩, h4⟩, h5⟩, h6⟩, h7⟩, h8⟩, h9⟩, h10⟩ := h
    simp [List.all_cons, alnum_of_alpha h1, alnum_of_alpha h2, alnum_of_digit h3,
      alnum_of_digit h4, alnum_of_alpha h5, alnum_of_alpha h6, alnum_of_digit h7,
      alnum_of_digit h8, alnum_of_digit h9, alnum_of_digit h10]

theorem shaped_ne_nil {m : List Char} (h : isPlateShaped m = true) : m ≠ [] := by
  rintro rfl
  simp [isPlateShaped] at h

theorem takeAlnumUpTo_length (n : Nat) (cs : List Char) :
    (takeAlnumUpTo n cs).length ≤ n := by
  induction n generalizing cs with
  | zero => simp [takeAlnumUpTo]
  | succ n ih =>
    cases cs with
    | nil => simp [takeAlnumUpTo]
    | cons c cs =>
      unfold takeAlnumUpTo
      by_cases h : isAlnumChar c = true
      · rw [if_pos h]
        simpa using ih cs
      · rw [if_neg h]
        simp

theorem takeAlnumUpTo_all (n : Nat) (cs : List Char) :
    (takeAlnumUpTo n cs).all isAlnumChar = true := by
  induction n generalizing cs with
  | zero => simp [takeAlnumUpTo]
  | succ n ih =>
    cases cs with
    | nil => simp [takeAlnumUpTo]
    | cons c cs =>
      unfold takeAlnumUpTo
      by_cases h : isAlnumChar c = true
      · rw [if_pos h]
        simp [List.all_cons, h, ih cs]
      · rw [if_neg h]
        simp

theorem takeAlnumUpTo_append (n : Nat) (cs : List Char) :
    ∃ t, cs = takeAlnumUpTo n cs ++ t := by
  induction n generalizing cs with
  | zero => exact ⟨cs, by simp [takeAlnumUpTo]⟩
  | succ n ih =>
    cases cs with
    | nil => exact ⟨[], by simp [takeAlnumUpTo]⟩
    | cons c cs =>
      unfold takeAlnumUpTo
      by_cases h : isAlnumChar c = true
      · rw [if_pos h]
        obtain ⟨t, ht⟩ := ih cs
        exact ⟨t, by rw [List.cons_append, ← ht]⟩
      · rw [if_neg h]
        exact ⟨c :: cs, by simp⟩

theorem matchBroadAt_spec {cs m : List Char} (h : matchBroadAt cs = some m) :
    8 ≤ m.length ∧ m.length ≤ 13 ∧ m.all isAlnumChar = true ∧ ∃ t, cs = m ++ t := by
  simp only [matchBroadAt] at h
  split at h
  · rename_i hl
    simp only [Option.some.injEq] at h
    subst h
    exact ⟨hl, takeAlnumUpTo_length 13 cs, takeAlnumUpTo_all 13 cs,
      takeAlnumUpTo_append 13 cs⟩
  · exact absurd h (by simp)

theorem findBroad_spec {cs m : List Char} (h : findBroad cs = some m) :
    8 ≤ m.length ∧ m.length ≤ 13 ∧ m.all isAlnumChar = true ∧
      ∃ p t, cs = p ++ m ++ t := by
  induction cs with
  | nil => simp [findBroad] at h
  | cons c cs ih =>
    unfold findBroad at h
    split at h
    · rename_i m2 hm
      simp only [Option.some.injEq] at h
      subst h
      obtain ⟨g1, g2, g3, t, ht⟩ := matchBroadAt_spec hm
      exact ⟨g1, g2, g3, [], t, by simpa using ht⟩
    · obtain ⟨g1, g2, g3, p, t, ht⟩ := ih h
      exact ⟨g1, g2, g3, c :: p, t, by simp [ht]⟩

/-!
## Extractor and adapter output facts
-/

theorem extractOCRSpaceCore_not_ws {raw m : List Char}
    (h : extractOCRSpaceCore raw = some m) :
    m ≠ [] ∧ m.all (fun c => !isJSWhitespace c) = true := by
  simp only [extractOCRSpaceCore] at h
  split at h
  · rename_i pm hp
    simp only [Option.some.injEq] at h
    subst h
    have hs := findPlate_shaped hp
    have hall := shaped_all_alnum hs
    constructor
    · simp only [ne_eq, List.map_eq_nil_iff]
      exact shaped_ne_nil hs
    · rw [List.all_eq_true] at hall ⊢
      intro c hc
      rw [List.mem_map] at hc
      obtain ⟨c0, hc0, rfl⟩ := hc
      simpa using toUpper_not_ws (hall c0 hc0)
  · split at h
    · rename_i bm hb
      simp only [Option.some.injEq] at h
      subst h
      obtain ⟨g1, _, g3, _⟩ := findBroad_spec hb
      constructor
      · simp only [ne_eq, List.map_eq_nil_iff]
        intro he
        subst he
        simp at g1
      · rw [List.all_eq_true] at g3 ⊢
        intro c hc
        rw [List.mem_map] at hc
        obtain ⟨c0, hc0, rfl⟩ := hc
        simpa using toUpper_not_ws (g3 c0 hc0)
    · exact absurd h (by simp)

theorem extract_cores_eq (raw : List Char) :
    extractTesseractCore raw = extractOCRSpaceCore raw := rfl

theorem runOCRSpaceAdapter_not_ws {po : OCRSpaceOutcome} {s : String}
    (h : runOCRSpaceAdapter po = some s) :
    s.data ≠ [] ∧ s.data.all (fun c => !isJSWhitespace c) = true := by
  cases po with
  | thrown => simp [runOCRSpaceAdapter] at h
  | response ok ec prs =>
    simp only [runOCRSpaceAdapter] at h
    split at h
    · split at h
      · split at h
        · rename_i pt rest
          simp only [extractVehicleNumberTextOCRSpace, Option.map_eq_some'] at h
          obtain ⟨m, hm, hs⟩ := h
          subst hs
          exact extractOCRSpaceCore_not_ws hm
        · exact absurd h (by simp)
      · exact absurd h (by simp)
    · exact absurd h (by simp)

theorem runTesseractAdapter_not_ws {fo : TesseractOutcome} {s : String}
    (h : runTesseractAdapter fo = some s) :
    s.data ≠ [] ∧ s.data.all (fun c => !isJSWhitespace c) = true := by
  cases fo with
  | thrown => simp [runTesseractAdapter] at h
  | recognized text =>
    simp only [runTesseractAdapter, extractVehicleNumberTextTesseract,
      Option.map_eq_some'] at h
    obtain ⟨m, hm, hs⟩ := h
    subst hs
    rw [extract_cores_eq] at hm
    exact extractOCRSpaceCore_not_ws hm

theorem string_ne_empty {s : String} (h : s.data ≠ []) : s ≠ "" := by
  intro he
  subst he
  exact h rfl

theorem not_all_ws {l : List Char} (hne : l ≠ [])
    (h : l.all (fun c => !isJSWhitespace c) = true) :
    l.all isJSWhitespace = false := by
  cases l with
  | nil => exact absurd rfl hne
  | cons c cs =>
    simp only [List.all_cons, Bool.and_eq_true, Bool.not_eq_true'] at h
    simp [List.all_cons, h.1]

/-!
## Orchestrator facts
-/

theorem finishWithFallback_calls (pc : Nat) (fo : TesseractOutcome) :
    (finishWithFallback pc fo).primaryCalls = pc ∧
      (finishWithFallback pc fo).fallbackCalls = 1 := by
  unfold finishWithFallback
  split
  · split
    · exact ⟨rfl, rfl⟩
    · exact ⟨rfl, rfl⟩
  · exact ⟨rfl, rfl⟩

theorem finishWithFallback_success {pc : Nat} {fo : TesseractOutcome} {t meth : String}
    (h : (finishWithFallback pc fo).result = OCRResult.success t meth) :
    runTesseractAdapter fo = some t ∧ meth = tesseractMethod := by
  unfold finishWithFallback at h
  split at h
  · rename_i s hs
    split at h
    · simp at h
    · simp only [OCRResult.success.injEq] at h
      obtain ⟨rfl, rfl⟩ := h
      exact ⟨hs, rfl⟩
  · simp at h

theorem extractVehicleNumber_file_eq (po : OCRSpaceOutcome) (fo : TesseractOutcome) :
    extractVehicleNumber (ImageInput.file po fo) =
      match runOCRSpaceAdapter po with
      | some s =>
        if s = "" then finishWithFallback 1 fo
        else ⟨1, 0, OCRResult.success s ocrSpaceMethod⟩
      | none => finishWithFallback 1 fo := rfl

theorem extractVehicleNumber_str_eq (fo : TesseractOutcome) :
    extractVehicleNumber (ImageInput.str fo) = finishWithFallback 0 fo := rfl

theorem extractVehicleNumber_primary_some {po : OCRSpaceOutcome} {fo : TesseractOutcome}
    {s : String} (h : runOCRSpaceAdapter po = some s) :
    extractVehicleNumber (ImageInput.file po fo) =
      ⟨1, 0, OCRResult.success s ocrSpaceMethod⟩ := by
  have hne : s ≠ "" := string_ne_empty (runOCRSpaceAdapter_not_ws h).1
  rw [extractVehicleNumber_file_eq, h]
  simp [hne]

theorem extractVehicleNumber_primary_none {po : OCRSpaceOutcome} {fo : TesseractOutcome}
    (h : runOCRSpaceAdapter po = none) :
    extractVehicleNumber (ImageInput.file po fo) = finishWithFallback 1 fo := by
  rw [extractVehicleNumber_file_eq, h]

theorem extractVehicleNumber_file_primaryCalls (po : OCRSpaceOutcome)
    (fo : TesseractOutcome) :
    (extractVehicleNumber (ImageInput.file po fo)).primaryCalls = 1 := by
  cases hp : runOCRSpaceAdapter po with
  | some s => rw [extractVehicleNumber_primary_some hp]
  | none =>
    rw [extractVehicleNumber_primary_none hp]
    exact (finishWithFallback_calls 1 fo).1

theorem extractVehicleNumber_calls (input : ImageInput) :
    (extractVehicleNumber input).primaryCalls ≤ 1 ∧
      (extractVehicleNumber input).fallbackCalls ≤ 1 := by
  cases input with
  | file po fo =>
    cases hp : runOCRSpaceAdapter po with
    | some s => rw [extractVehicleNumber_primary_some hp]; exact ⟨le_refl 1, Nat.zero_le 1⟩
    | none =>
      rw [extractVehicleNumber_primary_none hp]
      obtain ⟨h1, h2⟩ := finishWithFallback_calls 1 fo
      rw [h1, h2]
      exact ⟨le_refl 1, le_refl 1⟩
  | str fo =>
    rw [extractVehicleNumber_str_eq]
    obtain ⟨h1, h2⟩ := finishWithFallback_calls 0 fo
    rw [h1, h2]
    exact ⟨Nat.zero_le 1, le_refl 1⟩

/-!
## Claim theorems
-/

/-- C1, counterexample: the claim says the Primary (OCR.space) backend is never
invoked for camera-sourced captures.  In the code, `capturePhoto` wraps the
captured blob in `new File(...)` before calling `extractVehicleNumber`, so on a
concrete successful capture the Primary backend is invoked (once), and the
result is even attributed to the Fallback only because Primary failed. -/
theorem c1_camera_primary_cex :
    capturePhoto 640 480 true OCRSpaceOutcome.thrown
        (TesseractOutcome.recognized "MH 12 AB 1234") =
      CaptureResult.ocrInvoked 640 480
        ⟨1, 1, OCRResult.success "MH12AB1234" "Tesseract.js (fallback)"⟩ ∧
    capturePrimaryCalls (capturePhoto 640 480 true OCRSpaceOutcome.thrown
      (TesseractOutcome.recognized "MH 12 AB 1234")) = 1 := by
  decide

/-- C1 (amended): every camera-sourced capture whose encoder produces a blob is
converted to a `File` and handed to the pipeline, which invokes the Primary
backend exactly once; only non-file (string) inputs skip Primary and go
straight to the Fallback. -/
theorem c1_camera_invokes_primary (w h : Nat) (po : OCRSpaceOutcome)
    (fo : TesseractOutcome) :
    capturePhoto w h true po fo =
      CaptureResult.ocrInvoked (if w = 0 then 640 else w) (if h = 0 then 480 else h)
        (extractVehicleNumber (ImageInput.file po fo)) ∧
    (extractVehicleNumber (ImageInput.file po fo)).primaryCalls = 1 ∧
    (extractVehicleNumber (ImageInput.str fo)).primaryCalls = 0 ∧
    (extractVehicleNumber (ImageInput.str fo)).fallbackCalls = 1 := by
  refine ⟨by simp [capturePhoto], extractVehicleNumber_file_primaryCalls po fo, ?_, ?_⟩
  · rw [extractVehicleNumber_str_eq]
    exact (finishWithFallback_calls 0 fo).1
  · rw [extractVehicleNumber_str_eq]
    exact (finishWithFallback_calls 0 fo).2

/-- C10: the text-to-plate extraction inside the Primary (OCR.space) adapter
and the one inside the Fallback (Tesseract) adapter are the same function:
identical normalization, strict pattern, broad pattern and upper-casing. -/
theorem c10_extractors_identical (raw : String) :
    extractVehicleNumberTextOCRSpace raw = extractVehicleNumberTextTesseract raw := rfl

/-- C5: every internal failure of a backend adapter yields `null` (`none`):
a thrown transport/parse error, a non-success HTTP status (`!response.ok`, which
throws and is caught in the same adapter), a bad `OCRExitCode`, an empty
`ParsedResults`, and a thrown Tesseract error.  The adapters are total
functions into `Option String`, so the orchestrator only ever sees
null-or-text. -/
theorem c5_adapter_failures_null (ec badEc : Int) (prs prs2 : List String)
    (h : badEc ≠ 1) :
    runOCRSpaceAdapter OCRSpaceOutcome.thrown = none ∧
    runOCRSpaceAdapter (OCRSpaceOutcome.response false ec prs) = none ∧
    runOCRSpaceAdapter (OCRSpaceOutcome.response true badEc prs2) = none ∧
    runOCRSpaceAdapter (OCRSpaceOutcome.response true 1 []) = none ∧
    runTesseractAdapter TesseractOutcome.thrown = none := by
  refine ⟨rfl, rfl, ?_, rfl, rfl⟩
  simp [runOCRSpaceAdapter, h]

/-- Witness for C5 at a concrete bad exit code. -/
theorem c5_adapter_failures_null_witness :
    runOCRSpaceAdapter OCRSpaceOutcome.thrown = none ∧
    runOCRSpaceAdapter (OCRSpaceOutcome.response false 5 ["MH12AB1234"]) = none ∧
    runOCRSpaceAdapter (OCRSpaceOutcome.response true 3 ["MH12AB1234"]) = none ∧
    runOCRSpaceAdapter (OCRSpaceOutcome.response true 1 []) = none ∧
    runTesseractAdapter TesseractOutcome.thrown = none :=
  c5_adapter_failures_null 5 3 ["MH12AB1234"] ["MH12AB1234"] (by decide)

/-- C4: whenever the Primary backend returns a non-null plate string, the
pipeline reports Success with that text, sourced `"OCR.space API"`, and the
Fallback backend is not invoked (zero fallback calls, one primary call). -/
theorem c4_primary_short_circuit (po : OCRSpaceOutcome) (fo : TesseractOutcome)
    (s : String) (h : runOCRSpaceAdapter po = some s) :
    extractVehicleNumber (ImageInput.file po fo) =
      ⟨1, 0, OCRResult.success s ocrSpaceMethod⟩ :=
  extractVehicleNumber_primary_some h

/-- Witness for C4: a concrete successful Primary response. -/
theorem c4_primary_short_circuit_witness :
    extractVehicleNumber (ImageInput.file
        (OCRSpaceOutcome.response true 1 ["MH 12 AB 1234"]) TesseractOutcome.thrown) =
      ⟨1, 0, OCRResult.success "MH12AB1234" ocrSpaceMethod⟩ :=
  c4_primary_short_circuit (OCRSpaceOutcome.response true 1 ["MH 12 AB 1234"])
    TesseractOutcome.thrown "MH12AB1234" (by decide)

/-- C3: whenever the Primary backend returns null, the Fallback backend is
invoked exactly once; and in every pipeline invocation no backend is invoked
more than once (no retries). -/
theorem c3_fallback_exactly_once (po : OCRSpaceOutcome) (fo : TesseractOutcome)
    (input : ImageInput) (h : runOCRSpaceAdapter po = none) :
    (extractVehicleNumber (ImageInput.file po fo)).fallbackCalls = 1 ∧
    (extractVehicleNumber input).primaryCalls ≤ 1 ∧
    (extractVehicleNumber input).fallbackCalls ≤ 1 := by
  refine ⟨?_, (extractVehicleNumber_calls input).1, (extractVehicleNumber_calls input).2⟩
  rw [extractVehicleNumber_primary_none h]
  exact (finishWithFallback_calls 1 fo).2

/-- Witness for C3: Primary fails by a thrown network error. -/
theorem c3_fallback_exactly_once_witness :
    (extractVehicleNumber (ImageInput.file OCRSpaceOutcome.thrown
        TesseractOutcome.thrown)).fallbackCalls = 1 ∧
    (extractVehicleNumber (ImageInput.file OCRSpaceOutcome.thrown
        TesseractOutcome.thrown)).primaryCalls ≤ 1 ∧
    (extractVehicleNumber (ImageInput.file OCRSpaceOutcome.thrown
        TesseractOutcome.thrown)).fallbackCalls ≤ 1 :=
  c3_fallback_exactly_once OCRSpaceOutcome.thrown TesseractOutcome.thrown
    (ImageInput.file OCRSpaceOutcome.thrown TesseractOutcome.thrown) (by decide)

/-- C6, counterexample: the claim says a zero-dimension video surface causes a
CaptureError with no backend invoked.  In the code `canvas.width =
video.videoWidth || 640` silently substitutes 640x480 and capture proceeds:
with both dimensions zero and a successful encoder, both backends run. -/
theorem c6_zero_dims_cex :
    capturePhoto 0 0 true OCRSpaceOutcome.thrown TesseractOutcome.thrown =
      CaptureResult.ocrInvoked 640 480 ⟨1, 1, OCRResult.notFound⟩ ∧
    capturePhoto 0 0 true OCRSpaceOutcome.thrown TesseractOutcome.thrown ≠
      CaptureResult.captureError := by
  decide

/-- C6 (amended): camera capture fails with a CaptureError (no OCR backend
invoked) exactly when the image encoder produces no output data; a
zero-dimension video surface does not fail — the canvas silently falls back to
640x480 and capture proceeds into the OCR pipeline. -/
theorem c6_capture_error_iff_no_blob (w h : Nat) (po : OCRSpaceOutcome)
    (fo : TesseractOutcome) :
    capturePhoto w h false po fo = CaptureResult.captureError ∧
    capturePhoto w h true po fo =
      CaptureResult.ocrInvoked (if w = 0 then 640 else w) (if h = 0 then 480 else h)
        (extractVehicleNumber (ImageInput.file po fo)) := by
  constructor
  · simp [capturePhoto]
  · simp [capturePhoto]

/-- C2, counterexample: `"AB1C123"` matches the claimed primary shape (two
letters, one-to-two digits, one-to-two letters, three-to-five digits), so per
the claim the extractor should return `"AB1C123"`; the extractor in the source,
whose strict pattern is `/[A-Z]{2}[0-9]{2}[A-Z]{1,2}[0-9]{4}/i` and whose broad
pattern needs at least 8 characters, returns null on it. -/
theorem c2_claimed_shape_cex :
    specClaimedShape "AB1C123".data = true ∧
    extractVehicleNumberTextOCRSpace "AB1C123" = none ∧
    extractVehicleNumberTextTesseract "AB1C123" = none := by
  decide

/-- C2 (amended): the extractor's primary pattern matches exactly the shape
two letters, exactly two digits, one-to-two letters, exactly four digits
(case-insensitive), with no numeric-prefixed alternative; the first such
match in the normalized text, upper-cased, is returned when present. -/
theorem c2_strict_pattern (cs m : List Char) :
    (isPlateShaped m = true → matchPlateAt m = some m) ∧
    (findPlate cs = some m → isPlateShaped m = true) ∧
    (findPlate (cleanChars cs) = some m →
      extractOCRSpaceCore cs = some (m.map Char.toUpper) ∧
      extractTesseractCore cs = some (m.map Char.toUpper)) := by
  refine ⟨?_, fun h => findPlate_shaped h, fun h => ?_⟩
  · intro h
    simpa using matchPlateAt_complete h []
  · constructor
    · simp only [extractOCRSpaceCore]
      rw [h]
    · rw [extract_cores_eq]
      simp only [extractOCRSpaceCore]
      rw [h]

/-- Witness for C2 at concrete inputs. -/
theorem c2_strict_pattern_witness :
    matchPlateAt "MH12AB1234".data = some "MH12AB1234".data ∧
    isPlateShaped "MH12AB1234".data = true ∧
    (extractOCRSpaceCore "xMH12AB1234x".data =
        some ("MH12AB1234".data.map Char.toUpper) ∧
     extractTesseractCore "xMH12AB1234x".data =
        some ("MH12AB1234".data.map Char.toUpper)) :=
  ⟨(c2_strict_pattern "MH12AB1234".data "MH12AB1234".data).1 (by decide),
   (c2_strict_pattern "MH12AB1234".data "MH12AB1234".data).2.1 (by decide),
   (c2_strict_pattern "xMH12AB1234x".data "MH12AB1234".data).2.2 (by decide)⟩

/-- C7: when the strict pattern has no match in the normalized text and the
broad pattern does, the extractor returns the broad match (the leftmost,
greedy run of at most 13 alphanumerics) upper-cased; every broad match is 8-13
alphanumeric characters; on `"X1"` both patterns fail, the extractor returns
null and the pipeline reports NotFound. -/
theorem c7_broad_fallback (cs m : List Char)
    (h1 : findPlate (cleanChars cs) = none)
    (h2 : findBroad (cleanChars cs) = some m) :
    (extractOCRSpaceCore cs = some (m.map Char.toUpper) ∧
     extractTesseractCore cs = some (m.map Char.toUpper)) ∧
    (8 ≤ m.length ∧ m.length ≤ 13 ∧ m.all isAlnumChar = true) ∧
    extractVehicleNumberTextOCRSpace "X1" = none ∧
    extractVehicleNumberTextTesseract "X1" = none ∧
    extractVehicleNumber (ImageInput.str (TesseractOutcome.recognized "X1")) =
      ⟨0, 1, OCRResult.notFound⟩ := by
  obtain ⟨g1, g2, g3, -⟩ := findBroad_spec h2
  refine ⟨⟨?_, ?_⟩, ⟨g1, g2, g3⟩, by decide, by decide, by decide⟩
  · simp only [extractOCRSpaceCore]
    rw [h1, h2]
  · rw [extract_cores_eq]
    simp only [extractOCRSpaceCore]
    rw [h1, h2]

/-- Witness for C7: thirteen contiguous alphanumerics with no strict-pattern
substring. -/
theorem c7_broad_fallback_witness :
    (extractOCRSpaceCore "ABCDEFGHIJKLM".data =
        some ("ABCDEFGHIJKLM".data.map Char.toUpper) ∧
     extractTesseractCore "ABCDEFGHIJKLM".data =
        some ("ABCDEFGHIJKLM".data.map Char.toUpper)) ∧
    (8 ≤ "ABCDEFGHIJKLM".data.length ∧ "ABCDEFGHIJKLM".data.length ≤ 13 ∧
      "ABCDEFGHIJKLM".data.all isAlnumChar = true) ∧
    extractVehicleNumberTextOCRSpace "X1" = none ∧
    extractVehicleNumberTextTesseract "X1" = none ∧
    extractVehicleNumber (ImageInput.str (TesseractOutcome.recognized "X1")) =
      ⟨0, 1, OCRResult.notFound⟩ :=
  c7_broad_fallback "ABCDEFGHIJKLM".data "ABCDEFGHIJKLM".data (by decide) (by decide)

/-- C8: the pipeline never reports Success with an empty or whitespace-only
text: every reported success text is nonempty and contains no whitespace
character at all. -/
theorem c8_no_blank_success (input : ImageInput) (t meth : String)
    (h : (extractVehicleNumber input).result = OCRResult.success t meth) :
    t ≠ "" ∧ t.data.all isJSWhitespace = false := by
  have key : ∀ s : String, s.data ≠ [] →
      s.data.all (fun c => !isJSWhitespace c) = true →
      s ≠ "" ∧ s.data.all isJSWhitespace = false :=
    fun s h1 h2 => ⟨string_ne_empty h1, not_all_ws h1 h2⟩
  cases input with
  | file po fo =>
    cases hp : runOCRSpaceAdapter po with
    | some s =>
      rw [extractVehicleNumber_primary_some hp] at h
      simp only [OCRResult.success.injEq] at h
      obtain ⟨rfl, rfl⟩ := h
      obtain ⟨h1, h2⟩ := runOCRSpaceAdapter_not_ws hp
      exact key _ h1 h2
    | none =>
      rw [extractVehicleNumber_primary_none hp] at h
      obtain ⟨hf, -⟩ := finishWithFallback_success h
      obtain ⟨h1, h2⟩ := runTesseractAdapter_not_ws hf
      exact key _ h1 h2
  | str fo =>
    rw [extractVehicleNumber_str_eq] at h
    obtain ⟨hf, -⟩ := finishWithFallback_success h
    obtain ⟨h1, h2⟩ := runTesseractAdapter_not_ws hf
    exact key _ h1 h2

/-- Witness for C8 at a concrete successful detection. -/
theorem c8_no_blank_success_witness :
    ("MH12AB1234" : String) ≠ "" ∧
    ("MH12AB1234" : String).data.all isJSWhitespace = false :=
  c8_no_blank_success (ImageInput.str (TesseractOutcome.recognized "MH12AB1234"))
    "MH12AB1234" tesseractMethod (by decide)

/-- C9, counterexample: the claim says any raw text containing
`"MH 12 AB 1234"` yields `"MH12AB1234"` from the extractor; but
`"AB12CD5678 MH 12 AB 1234"` contains it and the leftmost strict-pattern
match is `"AB12CD5678"`, which is returned instead. -/
theorem c9_roundtrip_cex :
    ("AB12CD5678 " ++ "MH 12 AB 1234" : String) = "AB12CD5678 MH 12 AB 1234" ∧
    extractVehicleNumberTextOCRSpace "AB12CD5678 MH 12 AB 1234" =
      some "AB12CD5678" ∧
    extractVehicleNumberTextOCRSpace "AB12CD5678 MH 12 AB 1234" ≠
      some "MH12AB1234" := by
  decide

/-- C9 (amended): normalization of any raw text containing `"MH 12 AB 1234"`
yields a text containing `"MH12AB1234"`, and the strict pattern matches the
normalized text, so the extractor returns the leftmost strict match
upper-cased — equal to `"MH12AB1234"` for the raw text `"MH 12 AB 1234"`
itself, though an earlier match in surrounding text may win. -/
theorem c9_roundtrip (raw p t : List Char)
    (h : raw = p ++ "MH 12 AB 1234".data ++ t) :
    (∃ p2 t2, cleanChars raw = p2 ++ "MH12AB1234".data ++ t2) ∧
    (∃ m, findPlate (cleanChars raw) = some m ∧
      extractOCRSpaceCore raw = some (m.map Char.toUpper)) ∧
    extractVehicleNumberTextOCRSpace "MH 12 AB 1234" = some "MH12AB1234" := by
  subst h
  have hlit : List.filter (fun c => !isJSWhitespace c) "MH 12 AB 1234".data =
      "MH12AB1234".data := by decide
  have hsplit : cleanChars (p ++ "MH 12 AB 1234".data ++ t) =
      cleanChars p ++ ("MH12AB1234".data ++ cleanChars t) := by
    simp only [cleanChars, List.filter_append, hlit, List.append_assoc]
  refine ⟨⟨cleanChars p, cleanChars t, by rw [hsplit]; simp⟩, ?_, by decide⟩
  have hshaped : isPlateShaped "MH12AB1234".data = true := by decide
  have hmatch := matchPlateAt_complete hshaped (cleanChars t)
  have hsome : (findPlate (cleanChars (p ++ "MH 12 AB 1234".data ++ t))).isSome = true := by
    rw [hsplit]
    exact findPlate_isSome_append _ _ (by rw [hmatch]; rfl)
  obtain ⟨m, hm⟩ := Option.isSome_iff_exists.mp hsome
  refine ⟨m, hm, ?_⟩
  simp only [extractOCRSpaceCore]
  rw [hm]

/-- Witness for C9 at the raw text `"MH 12 AB 1234"` itself. -/
theorem c9_roundtrip_witness :
    (∃ p2 t2, cleanChars "MH 12 AB 1234".data = p2 ++ "MH12AB1234".data ++ t2) ∧
    (∃ m, findPlate (cleanChars "MH 12 AB 1234".data) = some m ∧
      extractOCRSpaceCore "MH 12 AB 1234".data = some (m.map Char.toUpper)) ∧
    extractVehicleNumberTextOCRSpace "MH 12 AB 1234" = some "MH12AB1234" :=
  c9_roundtrip "MH 12 AB 1234".data [] [] (by simp)
